import Mathlib

/-!
# Verification of the Sarvam segmented speech-transcription engine

Shallow embedding of `sarvam_stt.py` (and the constructor of `sarvam_llm.py`)
from the `voice-bot-exo` repository.  The engine's one effectful method,
`SarvamSTTService.run_stt`, is modelled as a pure function from its inputs and
an HTTP environment (the outcome of the single `session.post` call) to a trace
of observable actions: log lines, metric marker starts/stops, the HTTP request
itself, and the frames yielded downstream.  Session lifecycle
(`_ensure_session` / `_close_session`, `start` / `stop` / `cancel`) is modelled
as a small state machine over session-handle identifiers.

Modelling conventions:
* Python byte strings are `List UInt8`; `if not audio:` is emptiness.
* Python `None`-or-string values are `Option String`, with Python truthiness
  (`None` and `""` are falsy) made explicit where the source relies on it.
* JSON numbers are modelled as integers (no claim exercises fractional
  payload values).
* `yield None` (lines 138 and 212 of the source) is not a downstream event:
  the surrounding framework discards `None` values from the generator, so the
  trace records only real frames.
-/

namespace VoiceBot

/-- JSON values as decoded by `await response.json()`.  Objects are association
lists (Python `dict` preserves insertion order; keys are unique after
decoding, and lookups take the first match). -/
inductive Json where
  | null : Json
  | bool (b : Bool) : Json
  | num (n : Int) : Json
  | str (s : String) : Json
  | arr (elems : List Json) : Json
  | obj (fields : List (String × Json)) : Json

/-- `d.get(key)` on a decoded JSON object: first binding of `key`, if any. -/
def objGet (fields : List (String × Json)) (key : String) : Option Json :=
  (fields.find? (fun kv => kv.1 = key)).map (·.2)

/-- Python truthiness of a decoded JSON value (`if language_code`,
`payload.get("language_code") or ...`). -/
def pyTruthy : Json → Bool
  | .null => false
  | .bool b => b
  | .num n => n ≠ 0
  | .str s => s ≠ ""
  | .arr elems => !elems.isEmpty
  | .obj fields => !fields.isEmpty

/-- Python `repr` of a decoded JSON value (used by `str()` on containers:
strings are single-quoted, `True`/`False`/`None` spelled Python-style). -/
def pyRepr : Json → String
  | .null => "None"
  | .bool true => "True"
  | .bool false => "False"
  | .num n => toString n
  | .str s => "\x27" ++ s ++ "\x27"
  | .arr elems => "[" ++ String.intercalate ", " (elems.attach.map (fun e => pyRepr e.1)) ++ "]"
  | .obj fields =>
      "\x7b" ++ String.intercalate ", "
        (fields.attach.map (fun kv => "\x27" ++ kv.1.1 ++ "\x27: " ++ pyRepr kv.1.2)) ++ "\x7d"
decreasing_by
  · have h := List.sizeOf_lt_of_mem e.2
    simp only [Json.arr.sizeOf_spec]
    omega
  · have h1 := List.sizeOf_lt_of_mem kv.2
    have h2 : sizeOf kv.1.2 < sizeOf kv.1 := by
      obtain ⟨⟨a, b⟩, hm⟩ := kv
      simp +arith
    simp only [Json.obj.sizeOf_spec]
    omega

/-- Python `str()` of a decoded JSON value, as applied to the transcript field
(`str(payload.get("transcript", ""))`). -/
def pyStrJson : Json → String
  | .str s => s
  | v => pyRepr v

/-- Python values that can appear in the `extra_params` mapping (`Any` in the
source).  Finite floats are carried by their decimal representation, for which
Python's `str` and `json.dumps` agree. -/
inductive PyValue where
  | none : PyValue
  | bool (b : Bool) : PyValue
  | int (n : Int) : PyValue
  | float (repr10 : String) : PyValue
  | str (s : String) : PyValue
  | list (elems : List PyValue) : PyValue
  | dict (fields : List (String × PyValue)) : PyValue

/-- JSON string escaping as performed by `json.dumps` on the characters the
claims exercise (quote and backslash; other characters pass through). -/
def jsonEscapeChar (c : Char) : String :=
  if c = Char.ofNat 34 then "\\\""
  else if c = Char.ofNat 92 then "\\\\"
  else String.singleton c

def jsonEscape (s : String) : String :=
  String.join (s.data.map jsonEscapeChar)

/-- `json.dumps(value)` with the default separators `(", ", ": ")`. -/
def jsonDumps : PyValue → String
  | .none => "null"
  | .bool true => "true"
  | .bool false => "false"
  | .int n => toString n
  | .float repr10 => repr10
  | .str s => "\"" ++ jsonEscape s ++ "\""
  | .list elems =>
      "[" ++ String.intercalate ", " (elems.attach.map (fun e => jsonDumps e.1)) ++ "]"
  | .dict fields =>
      "\x7b" ++ String.intercalate ", "
        (fields.attach.map
          (fun kv => "\"" ++ jsonEscape kv.1.1 ++ "\": " ++ jsonDumps kv.1.2)) ++ "\x7d"
decreasing_by
  · have h := List.sizeOf_lt_of_mem e.2
    simp only [PyValue.list.sizeOf_spec]
    omega
  · have h1 := List.sizeOf_lt_of_mem kv.2
    have h2 : sizeOf kv.1.2 < sizeOf kv.1 := by
      obtain ⟨⟨a, b⟩, hm⟩ := kv
      simp +arith
    simp only [PyValue.dict.sizeOf_spec]
    omega

/-- Python `str()` on an extra-params value.  In `run_stt` the `str(value)`
branch is reached only for values that are not `None`, not `bool`/`int`/
`float`, and not `dict`/`list`; the remaining constructor is `str`, where
`str(s) = s`.  The other branches are included so the function is total. -/
def pyStrValue : PyValue → String
  | .none => "None"
  | .bool true => "True"
  | .bool false => "False"
  | .int n => toString n
  | .float repr10 => repr10
  | .str s => s
  | .list _ => "<repr>"
  | .dict _ => "<repr>"

/-- The value attached to a multipart form field: raw bytes (the audio file
field) or text. -/
inductive FieldValue where
  | bytes (data : List UInt8) : FieldValue
  | text (s : String) : FieldValue
  deriving Repr, DecidableEq

/-- One field of the `aiohttp.FormData` built by `run_stt`. -/
structure FormField where
  name : String
  value : FieldValue
  filename : Option String := Option.none
  contentType : Option String := Option.none
  deriving Repr, DecidableEq

/-- The three form-field names reserved by `run_stt` (line 148). -/
def reservedNames : List String := ["file", "language_code", "model"]

/-- The form fields contributed by one `extra_params` entry (lines 147-155):
reserved keys and `None` values are skipped; `dict`/`list` values are
JSON-serialized with an `application/json` content type; `bool`/`int`/`float`
values are JSON-serialized; everything else goes through `str()`. -/
def extraParamField (key : String) (value : PyValue) : List FormField :=
  if key ∈ reservedNames then []
  else
    match value with
    | .none => []
    | .dict fields =>
        [{ name := key, value := .text (jsonDumps (.dict fields)),
           contentType := some "application/json" }]
    | .list elems =>
        [{ name := key, value := .text (jsonDumps (.list elems)),
           contentType := some "application/json" }]
    | .bool b => [{ name := key, value := .text (jsonDumps (.bool b)) }]
    | .int n => [{ name := key, value := .text (jsonDumps (.int n)) }]
    | .float repr10 => [{ name := key, value := .text (jsonDumps (.float repr10)) }]
    | v => [{ name := key, value := .text (pyStrValue v) }]

/-- The full multipart form built by `run_stt` (lines 142-155): the audio file
field, the `language_code` and `model` fields, then the surviving
`extra_params` entries in mapping order. -/
def buildFormFields (audio : List UInt8) (languageCode modelName : String)
    (extraParams : List (String × PyValue)) : List FormField :=
  { name := "file", value := .bytes audio, filename := some "segment.wav",
    contentType := some "audio/wav" } ::
  { name := "language_code", value := .text languageCode } ::
  { name := "model", value := .text modelName } ::
  extraParams.flatMap (fun kv => extraParamField kv.1 kv.2)

/-! ## Session-handle state machine

`_session` / `_own_session` from the source, with session handles as numeric
identifiers so that foreign (externally injected) handles can be told apart
from engine-created ones.  `closedIds` records every closed handle (closed by
whoever); `engineCreated` and `engineClosed` record what the engine itself
did, so ownership claims are statements about those lists. -/

structure SessionState where
  /-- `self._session`: the current handle, if any. -/
  session : Option Nat
  /-- `self._own_session`. -/
  ownSession : Bool
  /-- Supply of fresh handle identifiers: every existing handle has id < nextId. -/
  nextId : Nat
  /-- Identifiers of handles that are closed. -/
  closedIds : List Nat
  /-- Identifiers of handles created by `_ensure_session` (engine-owned at birth). -/
  engineCreated : List Nat
  /-- Identifiers of handles the engine's `_close_session` actually closed. -/
  engineClosed : List Nat
  deriving Repr, DecidableEq

/-- Initial state when no session was injected into the constructor
(`aiohttp_session=None` keeps `_session=None`, `_own_session=False`). -/
def freshInit : SessionState :=
  { session := Option.none, ownSession := false, nextId := 0,
    closedIds := [], engineCreated := [], engineClosed := [] }

/-- Initial state when an external session (handle 0) was injected: it exists,
is open, and is *not* engine-created. -/
def injectedInit : SessionState :=
  { session := some 0, ownSession := false, nextId := 1,
    closedIds := [], engineCreated := [], engineClosed := [] }

/-- `_ensure_session` (lines 214-219): reuse the current handle if it exists
and is open; otherwise create a fresh handle and mark it engine-owned.
Returns the handle used together with the new state. -/
def ensureSession (st : SessionState) : Nat × SessionState :=
  match st.session with
  | some sid =>
      if sid ∈ st.closedIds then
        (st.nextId,
         { st with session := some st.nextId, ownSession := true,
                   nextId := st.nextId + 1,
                   engineCreated := st.nextId :: st.engineCreated })
      else (sid, st)
  | Option.none =>
      (st.nextId,
       { st with session := some st.nextId, ownSession := true,
                 nextId := st.nextId + 1,
                 engineCreated := st.nextId :: st.engineCreated })

/-- `_close_session` (lines 221-225): close the current handle only when it is
engine-owned, present, and still open; then forget it and drop ownership. -/
def closeSession (st : SessionState) : SessionState :=
  match st.session with
  | some sid =>
      if st.ownSession ∧ sid ∉ st.closedIds then
        { st with session := Option.none, ownSession := false,
                  closedIds := sid :: st.closedIds,
                  engineClosed := sid :: st.engineClosed }
      else st
  | Option.none => st

/-- Lifecycle phases driven by `start` / `stop` / `cancel` (lines 113-124).
The spec's §4.4 names these `Idle → Started → (Stopped | Cancelled)`. -/
inductive Phase where
  | idle : Phase
  | started : Phase
  | stopped : Phase
  | cancelled : Phase
  deriving Repr, DecidableEq

/-- Modelled from the spec: §4.4 calls `stop()`/`cancel()` terminal ("a
stopped/cancelled engine cannot be restarted"), so the phases in which the
engine may still run are `idle` and `started`.  The source tracks no such
phase itself (lifecycle state lives in the framework base class). -/
def startablePhase : Phase → Bool
  | .idle => true
  | .started => true
  | .stopped => false
  | .cancelled => false

/-- Engine state relevant to the session-lifecycle claims. -/
structure EngineState where
  phase : Phase
  sess : SessionState
  deriving Repr, DecidableEq

/-- Operations that touch the session handle or the lifecycle phase:
`start`, `stop`, `cancel`, a submission with a non-empty (`true`) or empty
(`false`) segment, and an external actor closing an existing handle
(e.g. the injector closing its own session). -/
inductive EngineOp where
  | opStart : EngineOp
  | opStop : EngineOp
  | opCancel : EngineOp
  | opSubmit (nonempty : Bool) : EngineOp
  | opExtClose (sid : Nat) : EngineOp
  deriving Repr, DecidableEq

/-- One engine-lifecycle step.  `stop` and `cancel` both call
`_close_session` (lines 118-124); a submission with a non-empty segment calls
`_ensure_session` (line 141) and never closes anything; an empty segment
returns before touching the session (lines 136-139). -/
def engineStep (st : EngineState) : EngineOp → EngineState
  | .opStart => { st with phase := .started }
  | .opStop => { phase := .stopped, sess := closeSession st.sess }
  | .opCancel => { phase := .cancelled, sess := closeSession st.sess }
  | .opSubmit nonempty =>
      if nonempty then { st with sess := (ensureSession st.sess).2 } else st
  | .opExtClose sid =>
      if sid < st.sess.nextId ∧ sid ∉ st.sess.closedIds then
        { st with sess := { st.sess with closedIds := sid :: st.sess.closedIds } }
      else st

/-- Run a sequence of lifecycle operations from an initial engine state. -/
def engineRun (st : EngineState) : List EngineOp → EngineState
  | [] => st
  | op :: ops => engineRun (engineStep st op) ops

/-! ## The `run_stt` submission cycle

`run_stt` performs exactly one HTTP POST per call.  Its environment is the
outcome of that POST: an exception raised while connecting/sending, or a
response with a status plus the outcomes of reading the body as text
(`await response.text()`, attempted only on non-200 status) and decoding it
as JSON (`await response.json()`, attempted only on status 200).  Exceptions
are classified by which `except` clause of lines 199-210 catches them:
`asyncio.TimeoutError`, `aiohttp.ClientError`, or any other `Exception`.
A JSON-decoding failure raises `json.JSONDecodeError` (a `ValueError`), which
is neither of the first two, so it lands in the final `except Exception`
clause. -/

inductive ExcKind where
  | timeoutError : ExcKind
  | clientError : ExcKind
  | unexpectedError : ExcKind
  deriving Repr, DecidableEq

structure Exc where
  kind : ExcKind
  msg : String
  deriving Repr, DecidableEq

/-- Environment for one submission: what the single `session.post` does. -/
inductive PostResult where
  | raise (e : Exc) : PostResult
  | resp (status : Nat) (text : Except Exc String) (body : Except Exc Json) : PostResult

/-- Downstream frames yielded by `run_stt`.  `TranscriptionFrame` carries the
transcript, the resolved language (`None` when unresolvable) and the raw
payload; the opaque user id and wall-clock timestamp are omitted.
`ErrorFrame` carries its human-readable message. -/
inductive Frame where
  | transcription (transcript : String) (language : Option String) (result : Json) : Frame
  | error (msg : String) : Frame

/-- Observable actions of one `run_stt` call, in program order. -/
inductive Action where
  | logWarning (msg : String) : Action
  | logError (msg : String) : Action
  | acquireSession (sid : Nat) : Action
  | startProcessingMetrics : Action
  | startTtfbMetrics : Action
  | httpPost (url : String) (form : List FormField) (headers : List (String × String)) : Action
  | readBodyText : Action
  | stopTtfbMetrics : Action
  | stopProcessingMetrics : Action
  | yieldFrame (f : Frame) : Action

/-- The service settings captured at submission time (`self._api_key`,
`self._base_url`, `self._language_code`, `self.model_name`,
`self._extra_params`). -/
structure Settings where
  apiKey : String
  baseUrl : String
  languageCode : String
  modelName : String
  extraParams : List (String × PyValue)

/-- Lines 181-186: `str(payload.get("transcript", ""))`. -/
def extractTranscript (fields : List (String × Json)) : String :=
  pyStrJson ((objGet fields "transcript").getD (.str ""))

/-- Lines 182-186: `language_code = payload.get("language_code") or
self._language_code`, then `Language(language_code) if language_code else
None` with `ValueError` mapped to `None`.  `validLang` stands for membership
in the framework's `Language` enumeration (`Language(s)` succeeds exactly on
the enumeration's string values, so non-string arguments always raise). -/
def resolveLanguage (fields : List (String × Json)) (requested : String)
    (validLang : String → Bool) : Option String :=
  let lc : Json :=
    match objGet fields "language_code" with
    | some v => if pyTruthy v then v else .str requested
    | Option.none => .str requested
  if pyTruthy lc then
    match lc with
    | .str s => if validLang s then some s else Option.none
    | _ => Option.none
  else Option.none

/-- Python type name of a decoded JSON value, as it appears in the
`AttributeError` raised by `payload.get` when the payload is not an object. -/
def pyTypeName : Json → String
  | .null => "NoneType"
  | .bool _ => "bool"
  | .num _ => "int"
  | .str _ => "str"
  | .arr _ => "list"
  | .obj _ => "dict"

/-- The error-frame message produced by the `except` clause that catches an
exception of the given kind (lines 199-210). -/
def excMsg (e : Exc) : String :=
  match e.kind with
  | .timeoutError => "Sarvam STT request timed out"
  | .clientError => "Sarvam STT connection error: " ++ e.msg
  | .unexpectedError => "Sarvam STT unexpected error: " ++ e.msg

/-- The tail of the trace produced by the `except` clauses of lines 199-210:
log, `stop_all_metrics()` (which stops the TTFB marker and then the
processing marker), and one `ErrorFrame`. -/
def excTrace (e : Exc) : List Action :=
  match e.kind with
  | .timeoutError =>
      [.logError "Sarvam STT request timed out",
       .stopTtfbMetrics, .stopProcessingMetrics,
       .yieldFrame (.error "Sarvam STT request timed out")]
  | .clientError =>
      [.logError ("Sarvam STT connection error: " ++ e.msg),
       .stopTtfbMetrics, .stopProcessingMetrics,
       .yieldFrame (.error ("Sarvam STT connection error: " ++ e.msg))]
  | .unexpectedError =>
      [.logError ("Sarvam STT unexpected error: " ++ e.msg),
       .stopTtfbMetrics, .stopProcessingMetrics,
       .yieldFrame (.error ("Sarvam STT unexpected error: " ++ e.msg))]

/-- The trace tail after the POST has been issued (lines 164-210). -/
def postTrace (cfg : Settings) (validLang : String → Bool) : PostResult → List Action
  | .raise e => excTrace e
  | .resp status text body =>
      if status ≠ 200 then
        match text with
        | .ok t =>
            [.readBodyText,
             .logError ("Sarvam STT error (" ++ toString status ++ "): " ++ t),
             .stopTtfbMetrics, .stopProcessingMetrics,
             .yieldFrame (.error ("Sarvam STT error: " ++ t))]
        | .error e => excTrace e
      else
        match body with
        | .error e => excTrace e
        | .ok (.obj fields) =>
            [.stopTtfbMetrics,
             .yieldFrame (.transcription (extractTranscript fields)
               (resolveLanguage fields cfg.languageCode validLang) (.obj fields)),
             .stopProcessingMetrics]
        | .ok payload =>
            -- `payload.get` on a non-dict raises AttributeError, caught by the
            -- final `except Exception` clause; note `stop_ttfb_metrics` (line
            -- 179) has already run at that point.
            .stopTtfbMetrics ::
              excTrace ⟨.unexpectedError,
                "\x27" ++ pyTypeName payload ++ "\x27 object has no attribute \x27get\x27"⟩

/-- One full `run_stt` call (lines 135-212): returns the action trace and the
resulting session state.  `run_stt` never closes the session; the only state
change is the lazy creation inside `_ensure_session`. -/
def runStt (cfg : Settings) (validLang : String → Bool) (st : SessionState)
    (audio : List UInt8) (post : PostResult) : List Action × SessionState :=
  if audio.isEmpty then
    ([.logWarning "Sarvam STT received empty audio segment; skipping request."], st)
  else
    let acq := ensureSession st
    let form := buildFormFields audio cfg.languageCode cfg.modelName cfg.extraParams
    (.acquireSession acq.1 ::
     .startProcessingMetrics :: .startTtfbMetrics ::
     .httpPost cfg.baseUrl form [("api-subscription-key", cfg.apiKey)] ::
     postTrace cfg validLang post,
     acq.2)

/-- The downstream events of a trace: the frames actually yielded
(`yield None` produces no event). -/
def traceEvents (tr : List Action) : List Frame :=
  tr.filterMap fun a =>
    match a with
    | .yieldFrame f => some f
    | _ => Option.none

/-- Number of HTTP requests issued in a trace. -/
def countPosts (tr : List Action) : Nat :=
  tr.countP fun a =>
    match a with
    | .httpPost _ _ _ => true
    | _ => false

/-- Whether a trace acquires a network session. -/
def acquiresSession (tr : List Action) : Bool :=
  tr.any fun a =>
    match a with
    | .acquireSession _ => true
    | _ => false

/-! ## Metric-marker semantics

The framework's markers are flags: starting sets a marker running, stopping a
running marker reports it and clears the flag, stopping an already-stopped
marker is a no-op.  `ttfbStops` / `procStops` count the effective
running→stopped transitions. -/

structure MarkerState where
  ttfbRunning : Bool
  procRunning : Bool
  ttfbStops : Nat
  procStops : Nat
  deriving Repr, DecidableEq

def markerInit : MarkerState :=
  { ttfbRunning := false, procRunning := false, ttfbStops := 0, procStops := 0 }

def markerStep (m : MarkerState) : Action → MarkerState
  | .startTtfbMetrics => { m with ttfbRunning := true }
  | .startProcessingMetrics => { m with procRunning := true }
  | .stopTtfbMetrics =>
      if m.ttfbRunning then
        { m with ttfbRunning := false, ttfbStops := m.ttfbStops + 1 }
      else m
  | .stopProcessingMetrics =>
      if m.procRunning then
        { m with procRunning := false, procStops := m.procStops + 1 }
      else m
  | _ => m

def markerRun (m : MarkerState) (tr : List Action) : MarkerState :=
  tr.foldl markerStep m

/-- Index of the first yielded error frame in a trace, if any. -/
def firstErrorIdx (tr : List Action) : Nat :=
  tr.findIdx fun a =>
    match a with
    | .yieldFrame (.error _) => true
    | _ => false

/-- The action trace of one `run_stt` call. -/
def sttTrace (cfg : Settings) (validLang : String → Bool) (st : SessionState)
    (audio : List UInt8) (post : PostResult) : List Action :=
  (runStt cfg validLang st audio post).1

/-! ## Constructor credential resolution

`SarvamSTTService.__init__` (lines 66-108) and `SarvamLLMService.__init__`
(lines 22-54) both begin with
`resolved_api_key = api_key or os.getenv("SARVAM_API_KEY")` followed by
`if not resolved_api_key: raise ValueError(...)` before any other work.
Environment variables are `Option String` (`none` = unset; a set-but-empty
variable is `some ""`, which is falsy). -/

/-- Python `a or b` over optional strings: `a` when truthy, else `b`. -/
def pyOrStr (a b : Option String) : Option String :=
  match a with
  | some s => if s = "" then b else some s
  | Option.none => b

/-- Python truthiness of an optional string. -/
def pyTruthyStrOpt : Option String → Bool
  | some s => s ≠ ""
  | Option.none => false

/-- `str.rstrip("/")`. -/
def rstripSlash (s : String) : String :=
  ⟨(s.data.reverse.dropWhile (· = '/')).reverse⟩

/-- `x or os.getenv(name, default)`: the explicit argument when truthy, else
the environment value when the variable is set (even to `""`), else the
hard-coded default. -/
def resolveWithEnvDefault (arg envVal : Option String) (default : String) : String :=
  (pyOrStr arg (some (envVal.getD default))).getD default

def SARVAM_STT_DEFAULT_MODEL : String := "saarika:v2.5"
def SARVAM_STT_DEFAULT_LANGUAGE : String := "en-IN"
def SARVAM_STT_DEFAULT_BASE_URL : String := "https://api.sarvam.ai/speech-to-text"
def SARVAM_DEFAULT_MODEL : String := "sarvam-m"
def SARVAM_DEFAULT_BASE_URL : String := "https://api.sarvam.ai/v1"

/-- `_normalize_language` (lines 50-55), with `Language` inputs represented by
their string value. -/
def normalizeLanguage (language : Option String) : String :=
  match language with
  | some s => if s = "" then SARVAM_STT_DEFAULT_LANGUAGE else s
  | Option.none => SARVAM_STT_DEFAULT_LANGUAGE

def apiKeyErrorMsg : String :=
  "Sarvam API key not provided. Pass `api_key` or set the `SARVAM_API_KEY` env var."

/-- Environment variables read by `SarvamSTTService.__init__`. -/
structure SttEnv where
  sarvamApiKey : Option String
  sttModel : Option String
  sttLanguage : Option String
  sttBaseUrl : Option String

/-- The state `SarvamSTTService.__init__` establishes (lines 96-108 plus the
session fields; `sessionInjected` records whether `aiohttp_session` was
passed, in which case the handle starts foreign-owned). -/
structure SttConfig where
  apiKey : String
  modelName : String
  languageCode : String
  baseUrl : String
  sessionInjected : Bool
  deriving Repr, DecidableEq

/-- `SarvamSTTService.__init__`: the credential check (lines 79-83) runs
first, so a missing credential raises before any other field is resolved or
assigned — modelled by the `Except` error branch constructing nothing. -/
def sarvamSTTInit (apiKey language model baseUrl : Option String)
    (sessionInjected : Bool) (env : SttEnv) : Except String SttConfig :=
  match pyOrStr apiKey env.sarvamApiKey with
  | Option.none => .error apiKeyErrorMsg
  | some k =>
      if k = "" then .error apiKeyErrorMsg
      else
        .ok { apiKey := k,
              modelName := resolveWithEnvDefault model env.sttModel SARVAM_STT_DEFAULT_MODEL,
              languageCode := normalizeLanguage
                (pyOrStr language (some (env.sttLanguage.getD SARVAM_STT_DEFAULT_LANGUAGE))),
              baseUrl := rstripSlash
                (resolveWithEnvDefault baseUrl env.sttBaseUrl SARVAM_STT_DEFAULT_BASE_URL),
              sessionInjected := sessionInjected }

/-- Environment variables read by `SarvamLLMService.__init__`. -/
structure LlmEnv where
  sarvamApiKey : Option String
  llmModel : Option String
  apiBaseUrl : Option String

structure LlmConfig where
  apiKey : String
  modelName : String
  baseUrl : String
  deriving Repr, DecidableEq

/-- `SarvamLLMService.__init__` (lines 22-54): same credential rule, then
model and base URL resolution (the base URL is `rstrip("/")`-ed when handed
to the superclass). -/
def sarvamLLMInit (apiKey model baseUrl : Option String)
    (env : LlmEnv) : Except String LlmConfig :=
  match pyOrStr apiKey env.sarvamApiKey with
  | Option.none => .error apiKeyErrorMsg
  | some k =>
      if k = "" then .error apiKeyErrorMsg
      else
        .ok { apiKey := k,
              modelName := resolveWithEnvDefault model env.llmModel SARVAM_DEFAULT_MODEL,
              baseUrl := rstripSlash
                (resolveWithEnvDefault baseUrl env.apiBaseUrl SARVAM_DEFAULT_BASE_URL) }

/-! ## Well-formedness of session states -/

/-- Basic well-formedness: `nextId` really is fresh (every closed handle and
the current handle, if any, have smaller identifiers), engine-closed handles
were engine-created, and an owned handle is one the engine created. -/
def SessionState.Inv (s : SessionState) : Prop :=
  (∀ sid ∈ s.closedIds, sid < s.nextId) ∧
  (∀ sid, s.session = some sid → sid < s.nextId) ∧
  (∀ sid ∈ s.engineCreated, sid < s.nextId) ∧
  (s.engineClosed ⊆ s.engineCreated) ∧
  (s.ownSession = true → ∃ sid, s.session = some sid ∧ sid ∈ s.engineCreated)

/-- In the injected-session scenario the foreign handle is id 0 and the
engine's fresh ids start at 1, so 0 is never engine-created. -/
def SessionState.ForeignSafe (s : SessionState) : Prop :=
  1 ≤ s.nextId ∧ 0 ∉ s.engineCreated

/-- Concrete settings used by witnesses and counterexamples. -/
def cfgEx : Settings :=
  { apiKey := "key", baseUrl := "https://api.sarvam.ai/speech-to-text",
    languageCode := "en-IN", modelName := "saarika:v2.5", extraParams := [] }

/-- Concrete stand-in for the framework's supported-language set: it contains
`"en-IN"` and `"hi-IN"` (both are values of the framework's `Language`
enumeration) and nothing else. -/
def langsEx : String → Bool := fun s => s = "en-IN" || s = "hi-IN"

/-! ## Helper lemmas -/

theorem traceEvents_excTrace (e : Exc) : traceEvents (excTrace e) = [.error (excMsg e)] := by
  obtain ⟨k, m⟩ := e
  cases k <;> rfl

theorem postTrace_one_event (cfg : Settings) (validLang : String → Bool) (post : PostResult) :
    ∃ f, traceEvents (postTrace cfg validLang post) = [f] := by
  cases post with
  | raise e => exact ⟨_, traceEvents_excTrace e⟩
  | resp status text body =>
    by_cases hs : status = 200
    · subst hs
      cases body with
      | error e =>
        refine ⟨.error (excMsg e), ?_⟩
        simpa [postTrace] using traceEvents_excTrace e
      | ok payload =>
        cases payload with
        | obj fields => exact ⟨_, rfl⟩
        | null => exact ⟨_, rfl⟩
        | bool b => exact ⟨_, by cases b <;> rfl⟩
        | num n => exact ⟨_, rfl⟩
        | str s => exact ⟨_, rfl⟩
        | arr elems => exact ⟨_, rfl⟩
    · cases text with
      | ok t =>
        refine ⟨.error ("Sarvam STT error: " ++ t), ?_⟩
        simp [postTrace, hs, traceEvents]
      | error e =>
        refine ⟨.error (excMsg e), ?_⟩
        simpa [postTrace, hs] using traceEvents_excTrace e

theorem runStt_nonempty_trace (cfg : Settings) (validLang : String → Bool)
    (st : SessionState) (a : UInt8) (rest : List UInt8) (post : PostResult) :
    (runStt cfg validLang st (a :: rest) post).1 =
      .acquireSession (ensureSession st).1 ::
      .startProcessingMetrics :: .startTtfbMetrics ::
      .httpPost cfg.baseUrl
        (buildFormFields (a :: rest) cfg.languageCode cfg.modelName cfg.extraParams)
        [("api-subscription-key", cfg.apiKey)] ::
      postTrace cfg validLang post := rfl

theorem ensureSession_open (st : SessionState)
    (hclosed : ∀ sid ∈ st.closedIds, sid < st.nextId) :
    (ensureSession st).2.session = some (ensureSession st).1 ∧
    (ensureSession st).1 ∉ (ensureSession st).2.closedIds := by
  rcases hs : st.session with _ | sid
  · refine ⟨by simp [ensureSession, hs], fun hmem => ?_⟩
    simp only [ensureSession, hs] at hmem
    exact absurd (hclosed _ hmem) (lt_irrefl _)
  · by_cases hmem : sid ∈ st.closedIds
    · refine ⟨by simp [ensureSession, hs, hmem], fun hmem' => ?_⟩
      simp only [ensureSession, hs, hmem, if_true] at hmem'
      exact absurd (hclosed _ hmem') (lt_irrefl _)
    · exact ⟨by simp [ensureSession, hs, hmem], by simp [ensureSession, hs, hmem]⟩

theorem ensureSession_stable (st : SessionState) (sid : Nat)
    (h1 : st.session = some sid) (h2 : sid ∉ st.closedIds) :
    ensureSession st = (sid, st) := by
  unfold ensureSession
  rw [h1]
  simp [h2]

/-! ## Claim theorems -/

theorem string_append_ne (a b m m' : String) (hlen : a.data.length = b.data.length)
    (hne : a.data ≠ b.data) : a ++ m ≠ b ++ m' := by
  intro hcontra
  apply hne
  have hd : a.data ++ m.data = b.data ++ m'.data := by
    have hdata := congrArg String.data hcontra
    simpa [String.data_append] using hdata
  exact List.append_inj_left hd hlen

/-- C1: a call to `run_stt` with an empty (zero-byte) segment issues no HTTP
request, acquires no session (the session state is untouched), yields no
downstream event of any kind, and only logs a warning. -/
theorem empty_segment_skips_request (cfg : Settings) (validLang : String → Bool)
    (st : SessionState) (post : PostResult) :
    countPosts (runStt cfg validLang st [] post).1 = 0 ∧
    acquiresSession (runStt cfg validLang st [] post).1 = false ∧
    traceEvents (runStt cfg validLang st [] post).1 = [] ∧
    (runStt cfg validLang st [] post).1 =
      [.logWarning "Sarvam STT received empty audio segment; skipping request."] ∧
    (runStt cfg validLang st [] post).2 = st :=
  ⟨rfl, rfl, rfl, rfl, rfl⟩

/-- C6: a call to `run_stt` with a non-empty segment terminates with exactly
one downstream event — a single transcription frame or a single error frame —
on every success and failure path. -/
theorem nonempty_segment_exactly_one_event (cfg : Settings) (validLang : String → Bool)
    (st : SessionState) (audio : List UInt8) (post : PostResult) (h : audio ≠ []) :
    ∃ f, traceEvents (runStt cfg validLang st audio post).1 = [f] := by
  obtain ⟨a, rest, rfl⟩ := List.exists_cons_of_ne_nil h
  obtain ⟨f, hf⟩ := postTrace_one_event cfg validLang post
  exact ⟨f, by simp [runStt_nonempty_trace, traceEvents] at hf ⊢; exact hf⟩

/-- Witness for `nonempty_segment_exactly_one_event` at a concrete input. -/
theorem nonempty_segment_exactly_one_event_witness :
    ([(7 : UInt8)] ≠ []) ∧
    ∃ f, traceEvents (runStt cfgEx langsEx freshInit [7]
      (.resp 200 (.ok "") (.ok (.obj [("transcript", .str "hello world")])))).1 = [f] :=
  ⟨by decide,
   nonempty_segment_exactly_one_event cfgEx langsEx freshInit [7]
     (.resp 200 (.ok "") (.ok (.obj [("transcript", .str "hello world")]))) (by decide)⟩

/-- C2: on a 200 response whose body decodes to a JSON object (the expected
response shape), `run_stt` yields exactly one transcription event whose
transcript is the payload's `transcript` field as a string — `""` when the
field is absent; whose language falls back to the requested code when
`language_code` is absent from the response; and a `language_code` outside
the supported language set still yields the successful transcription event
with the transcript intact and an unresolved (`none`) language marker rather
than a failure. -/
theorem success_response_transcription (cfg : Settings) (validLang : String → Bool)
    (st : SessionState) (audio : List UInt8) (text : Except Exc String)
    (fields : List (String × Json)) (h : audio ≠ []) :
    traceEvents (runStt cfg validLang st audio (.resp 200 text (.ok (.obj fields)))).1 =
      [.transcription (extractTranscript fields)
        (resolveLanguage fields cfg.languageCode validLang) (.obj fields)] ∧
    (∀ t, objGet fields "transcript" = some (.str t) → extractTranscript fields = t) ∧
    (objGet fields "transcript" = Option.none → extractTranscript fields = "") ∧
    (objGet fields "language_code" = Option.none → validLang cfg.languageCode = true →
      cfg.languageCode ≠ "" →
      resolveLanguage fields cfg.languageCode validLang = some cfg.languageCode) ∧
    (∀ c, objGet fields "language_code" = some (.str c) → c ≠ "" → validLang c = false →
      resolveLanguage fields cfg.languageCode validLang = Option.none) := by
  obtain ⟨a, rest, rfl⟩ := List.exists_cons_of_ne_nil h
  refine ⟨?_, ?_, ?_, ?_, ?_⟩
  · simp [runStt_nonempty_trace, traceEvents, postTrace]
  · intro t ht
    simp [extractTranscript, ht, pyStrJson]
  · intro ht
    simp [extractTranscript, ht, pyStrJson]
  · intro hl hv hne
    simp [resolveLanguage, hl, pyTruthy, hne, hv]
  · intro c hc hcne hcv
    simp [resolveLanguage, hc, pyTruthy, hcne, hcv]

/-- Witness for `success_response_transcription` at concrete inputs, covering
a present transcript with a supported language, an absent transcript, an
absent language code, and an unsupported language code. -/
theorem success_response_transcription_witness :
    traceEvents (runStt cfgEx langsEx freshInit [7]
        (.resp 200 (.ok "") (.ok (.obj [("transcript", Json.str "hello world"),
          ("language_code", Json.str "en-IN")])))).1 =
      [.transcription "hello world" (some "en-IN")
        (.obj [("transcript", Json.str "hello world"), ("language_code", Json.str "en-IN")])] ∧
    extractTranscript [("language_code", Json.str "en-IN")] = "" ∧
    resolveLanguage [("transcript", Json.str "x")] "en-IN" langsEx = some "en-IN" ∧
    resolveLanguage [("language_code", Json.str "xx-ZZ")] "en-IN" langsEx = Option.none := by
  have h1 := success_response_transcription cfgEx langsEx freshInit [7] (.ok "")
    [("transcript", Json.str "hello world"), ("language_code", Json.str "en-IN")] (by decide)
  have h2 := success_response_transcription cfgEx langsEx freshInit [7] (.ok "")
    [("language_code", Json.str "en-IN")] (by decide)
  have h3 := success_response_transcription cfgEx langsEx freshInit [7] (.ok "")
    [("transcript", Json.str "x")] (by decide)
  have h4 := success_response_transcription cfgEx langsEx freshInit [7] (.ok "")
    [("language_code", Json.str "xx-ZZ")] (by decide)
  refine ⟨?_, ?_, ?_, ?_⟩
  · rw [h1.1]
    rfl
  · exact h2.2.2.1 rfl
  · exact h3.2.2.2.1 rfl rfl (by decide)
  · exact h4.2.2.2.2 "xx-ZZ" rfl (by decide) (by decide)

/-- C3 counterexample: a 429 response with body `"rate limited"` produces the
single error event `"Sarvam STT error: rate limited"`, whose message does not
contain the digits of the status anywhere — the emitted error event does not
carry the numeric status (only the log line does). -/
theorem upstream_error_event_lacks_status :
    traceEvents (runStt cfgEx langsEx freshInit [7]
        (.resp 429 (.ok "rate limited") (.error ⟨.unexpectedError, "x"⟩))).1 =
      [.error "Sarvam STT error: rate limited"] ∧
    ¬ ("429".data <:+: "Sarvam STT error: rate limited".data) :=
  ⟨rfl, by decide⟩

/-- C3 amended: on a non-200 response the body is read fully before the
outcome is surfaced; the error *log* line carries both the numeric status and
the full body text; and the single emitted error event carries the full body
text (but not the status). -/
theorem upstream_error_body_read_and_logged (cfg : Settings) (validLang : String → Bool)
    (st : SessionState) (audio : List UInt8) (status : Nat) (t : String)
    (body : Except Exc Json) (h : audio ≠ []) (hs : status ≠ 200) :
    (runStt cfg validLang st audio (.resp status (.ok t) body)).1 =
      .acquireSession (ensureSession st).1 ::
      .startProcessingMetrics :: .startTtfbMetrics ::
      .httpPost cfg.baseUrl
        (buildFormFields audio cfg.languageCode cfg.modelName cfg.extraParams)
        [("api-subscription-key", cfg.apiKey)] ::
      .readBodyText ::
      .logError ("Sarvam STT error (" ++ toString status ++ "): " ++ t) ::
      .stopTtfbMetrics :: .stopProcessingMetrics ::
      [.yieldFrame (.error ("Sarvam STT error: " ++ t))] ∧
    traceEvents (runStt cfg validLang st audio (.resp status (.ok t) body)).1 =
      [.error ("Sarvam STT error: " ++ t)] := by
  obtain ⟨a, rest, rfl⟩ := List.exists_cons_of_ne_nil h
  constructor
  · simp [runStt_nonempty_trace, postTrace, hs]
  · simp [runStt_nonempty_trace, postTrace, hs, traceEvents]

/-- Witness for `upstream_error_body_read_and_logged` at a concrete 429. -/
theorem upstream_error_body_read_and_logged_witness :
    ([(7 : UInt8)] ≠ [] ∧ (429 : Nat) ≠ 200) ∧
    traceEvents (runStt cfgEx langsEx freshInit [7]
        (.resp 429 (.ok "rate limited") (.ok Json.null))).1 =
      [.error ("Sarvam STT error: " ++ "rate limited")] :=
  ⟨⟨by decide, by decide⟩,
   (upstream_error_body_read_and_logged cfgEx langsEx freshInit [7] 429 "rate limited"
     (.ok Json.null) (by decide) (by decide)).2⟩

/-- C4: a 200 response whose body cannot be decoded as JSON raises
`json.JSONDecodeError` — neither an `asyncio.TimeoutError` nor an
`aiohttp.ClientError` — so it is caught by the final `except Exception`
clause: the failure is recovered locally as exactly one error event (it
never escapes `run_stt`), and that event's message
(`"Sarvam STT unexpected error: …"`) is distinguishable from every
transport-error event's message (`"Sarvam STT connection error: …"`). -/
theorem malformed_response_recovered (cfg : Settings) (validLang : String → Bool)
    (st : SessionState) (audio : List UInt8) (text : Except Exc String) (m : String)
    (h : audio ≠ []) :
    traceEvents (runStt cfg validLang st audio
        (.resp 200 text (.error ⟨.unexpectedError, m⟩))).1 =
      [.error ("Sarvam STT unexpected error: " ++ m)] ∧
    (∀ m', traceEvents (runStt cfg validLang st audio (.raise ⟨.clientError, m'⟩)).1 =
      [.error ("Sarvam STT connection error: " ++ m')]) ∧
    (∀ m', ("Sarvam STT unexpected error: " ++ m) ≠ ("Sarvam STT connection error: " ++ m')) := by
  obtain ⟨a, rest, rfl⟩ := List.exists_cons_of_ne_nil h
  refine ⟨?_, fun m' => ?_, fun m' => ?_⟩
  · simp [runStt_nonempty_trace, postTrace, traceEvents, excTrace]
  · simp [runStt_nonempty_trace, postTrace, traceEvents, excTrace]
  · exact string_append_ne _ _ _ _ (by decide) (by decide)

/-- Witness for `malformed_response_recovered` on an unparseable 200 body. -/
theorem malformed_response_recovered_witness :
    ([(7 : UInt8)] ≠ []) ∧
    traceEvents (runStt cfgEx langsEx freshInit [7]
        (.resp 200 (.ok "not json")
          (.error ⟨.unexpectedError, "Expecting value: line 1 column 1 (char 0)"⟩))).1 =
      [.error ("Sarvam STT unexpected error: " ++ "Expecting value: line 1 column 1 (char 0)")] :=
  ⟨by decide,
   (malformed_response_recovered cfgEx langsEx freshInit [7] (.ok "not json")
     "Expecting value: line 1 column 1 (char 0)" (by decide)).1⟩

/-- C5: a submission that times out yields exactly one timeout error event,
issues exactly one HTTP request (no retry), and leaves the session handle
open and unchanged: the next submission's `_ensure_session` returns the very
same handle without creating a new one. -/
theorem timeout_no_retry_session_usable (cfg : Settings) (validLang : String → Bool)
    (st : SessionState) (audio : List UInt8) (m : String) (h : audio ≠ [])
    (hclosed : ∀ sid ∈ st.closedIds, sid < st.nextId) :
    traceEvents (runStt cfg validLang st audio (.raise ⟨.timeoutError, m⟩)).1 =
      [.error "Sarvam STT request timed out"] ∧
    countPosts (runStt cfg validLang st audio (.raise ⟨.timeoutError, m⟩)).1 = 1 ∧
    (runStt cfg validLang st audio (.raise ⟨.timeoutError, m⟩)).2.session =
      some (ensureSession st).1 ∧
    (ensureSession st).1 ∉
      (runStt cfg validLang st audio (.raise ⟨.timeoutError, m⟩)).2.closedIds ∧
    ensureSession (runStt cfg validLang st audio (.raise ⟨.timeoutError, m⟩)).2 =
      ((ensureSession st).1, (runStt cfg validLang st audio (.raise ⟨.timeoutError, m⟩)).2) := by
  obtain ⟨a, rest, rfl⟩ := List.exists_cons_of_ne_nil h
  obtain ⟨hopen, hnotclosed⟩ := ensureSession_open st hclosed
  have hst2 : (runStt cfg validLang st (a :: rest) (.raise ⟨.timeoutError, m⟩)).2 =
      (ensureSession st).2 := rfl
  refine ⟨?_, ?_, ?_, ?_, ?_⟩
  · simp [runStt_nonempty_trace, postTrace, traceEvents, excTrace]
  · simp [runStt_nonempty_trace, postTrace, excTrace, countPosts]
  · rw [hst2]
    exact hopen
  · rw [hst2]
    exact hnotclosed
  · rw [hst2]
    exact ensureSession_stable _ _ hopen hnotclosed

/-- Witness for `timeout_no_retry_session_usable` on a fresh engine. -/
theorem timeout_no_retry_session_usable_witness :
    ([(7 : UInt8)] ≠ []) ∧
    traceEvents (runStt cfgEx langsEx freshInit [7] (.raise ⟨.timeoutError, ""⟩)).1 =
      [.error "Sarvam STT request timed out"] ∧
    ensureSession (runStt cfgEx langsEx freshInit [7] (.raise ⟨.timeoutError, ""⟩)).2 =
      ((ensureSession freshInit).1,
       (runStt cfgEx langsEx freshInit [7] (.raise ⟨.timeoutError, ""⟩)).2) := by
  have h := timeout_no_retry_session_usable cfgEx langsEx freshInit [7] "" (by decide)
    (by simp [freshInit])
  exact ⟨by decide, h.1, h.2.2.2.2⟩

/-- C7: on every path of a non-empty submission — success, non-200 status,
timeout, transport error, parse error — the TTFB marker and the processing
marker both end stopped with exactly one effective running→stopped transition
each, and whenever an error frame is yielded, both markers are already
stopped in the trace prefix preceding it. -/
theorem all_paths_stop_markers_once (cfg : Settings) (validLang : String → Bool)
    (st : SessionState) (audio : List UInt8) (post : PostResult) (h : audio ≠ []) :
    (markerRun markerInit (sttTrace cfg validLang st audio post)).ttfbRunning = false ∧
    (markerRun markerInit (sttTrace cfg validLang st audio post)).procRunning = false ∧
    (markerRun markerInit (sttTrace cfg validLang st audio post)).ttfbStops = 1 ∧
    (markerRun markerInit (sttTrace cfg validLang st audio post)).procStops = 1 ∧
    (∀ msg, Action.yieldFrame (.error msg) ∈ sttTrace cfg validLang st audio post →
      (markerRun markerInit ((sttTrace cfg validLang st audio post).take
        (firstErrorIdx (sttTrace cfg validLang st audio post)))).ttfbRunning = false ∧
      (markerRun markerInit ((sttTrace cfg validLang st audio post).take
        (firstErrorIdx (sttTrace cfg validLang st audio post)))).procRunning = false) := by
  obtain ⟨a, rest, rfl⟩ := List.exists_cons_of_ne_nil h
  cases post with
  | raise e =>
    obtain ⟨k, m⟩ := e
    cases k <;> exact ⟨rfl, rfl, rfl, rfl, fun msg _ => ⟨rfl, rfl⟩⟩
  | resp status text body =>
    by_cases hs : status = 200
    · subst hs
      cases body with
      | error e =>
        obtain ⟨k, m⟩ := e
        cases k <;> exact ⟨rfl, rfl, rfl, rfl, fun msg _ => ⟨rfl, rfl⟩⟩
      | ok payload =>
        cases payload with
        | null => exact ⟨rfl, rfl, rfl, rfl, fun msg _ => ⟨rfl, rfl⟩⟩
        | bool b => cases b <;> exact ⟨rfl, rfl, rfl, rfl, fun msg _ => ⟨rfl, rfl⟩⟩
        | num n => exact ⟨rfl, rfl, rfl, rfl, fun msg _ => ⟨rfl, rfl⟩⟩
        | str s => exact ⟨rfl, rfl, rfl, rfl, fun msg _ => ⟨rfl, rfl⟩⟩
        | arr elems => exact ⟨rfl, rfl, rfl, rfl, fun msg _ => ⟨rfl, rfl⟩⟩
        | obj fields =>
          refine ⟨rfl, rfl, rfl, rfl, fun msg hmem => ?_⟩
          simp [sttTrace, runStt_nonempty_trace, postTrace] at hmem
    · cases text with
        | ok t =>
          refine ⟨?_, ?_, ?_, ?_, fun msg hmem => ⟨?_, ?_⟩⟩ <;>
            simp [sttTrace, runStt_nonempty_trace, postTrace, hs, markerRun,
              markerStep, markerInit, firstErrorIdx, List.findIdx_cons]
        | error e =>
          obtain ⟨k, m⟩ := e
          cases k <;>
            (refine ⟨?_, ?_, ?_, ?_, fun msg hmem => ⟨?_, ?_⟩⟩ <;>
              simp [sttTrace, runStt_nonempty_trace, postTrace, excTrace, hs,
                markerRun, markerStep, markerInit, firstErrorIdx, List.findIdx_cons])

/-- Witness for `all_paths_stop_markers_once` on a concrete 429 failure. -/
theorem all_paths_stop_markers_once_witness :
    ([(7 : UInt8)] ≠ []) ∧
    (markerRun markerInit (sttTrace cfgEx langsEx freshInit [7]
      (.resp 429 (.ok "rate limited") (.ok Json.null)))).ttfbStops = 1 :=
  ⟨by decide,
   (all_paths_stop_markers_once cfgEx langsEx freshInit [7]
     (.resp 429 (.ok "rate limited") (.ok Json.null)) (by decide)).2.2.1⟩

/-- C8 counterexample: an extra-parameters entry whose value is the *empty*
string is not excluded — the field is attached to the form with an empty
value (line 148 skips only `None` values, not empty ones). -/
theorem extra_param_empty_value_attached :
    (⟨"note", .text "", Option.none, Option.none⟩ : FormField) ∈
      buildFormFields [7] "en-IN" "saarika:v2.5" [("note", PyValue.str "")] := by
  decide

/-- C8 amended: extra-parameters entries whose key collides with `file`,
`language_code` or `model`, or whose value is *null* (`None`), are excluded
(empty strings are attached as empty fields); boolean and numeric values are
serialized as their JSON literal form (`true`/`false`, decimal literals), not
native string coercion; `dict`/`list` values are serialized to their
canonical JSON textual form and attached with an `application/json` content
type; the surviving entries follow the three reserved fields in mapping
order. -/
theorem extra_params_serialization (k : String) (audio : List UInt8)
    (lc mn : String) (extra : List (String × PyValue)) :
    (∀ v, k ∈ reservedNames → extraParamField k v = []) ∧
    extraParamField k .none = [] ∧
    (k ∉ reservedNames →
      (∀ b, extraParamField k (.bool b) =
        [⟨k, .text (if b then "true" else "false"), Option.none, Option.none⟩]) ∧
      (∀ n, extraParamField k (.int n) =
        [⟨k, .text (toString n), Option.none, Option.none⟩]) ∧
      (∀ r, extraParamField k (.float r) = [⟨k, .text r, Option.none, Option.none⟩]) ∧
      (∀ fs, extraParamField k (.dict fs) =
        [⟨k, .text (jsonDumps (.dict fs)), Option.none, some "application/json"⟩]) ∧
      (∀ es, extraParamField k (.list es) =
        [⟨k, .text (jsonDumps (.list es)), Option.none, some "application/json"⟩]) ∧
      (∀ s, extraParamField k (.str s) = [⟨k, .text s, Option.none, Option.none⟩])) ∧
    buildFormFields audio lc mn extra =
      ⟨"file", .bytes audio, some "segment.wav", some "audio/wav"⟩ ::
      ⟨"language_code", .text lc, Option.none, Option.none⟩ ::
      ⟨"model", .text mn, Option.none, Option.none⟩ ::
      extra.flatMap (fun kv => extraParamField kv.1 kv.2) := by
  refine ⟨?_, ?_, fun hk => ⟨?_, ?_, ?_, ?_, ?_, ?_⟩, rfl⟩
  · intro v hk
    simp [extraParamField, hk]
  · by_cases hk : k ∈ reservedNames <;> simp [extraParamField, hk]
  · intro b
    cases b <;> simp [extraParamField, hk, jsonDumps, pyStrValue]
  · intro n
    simp [extraParamField, hk, jsonDumps]
  · intro r
    simp [extraParamField, hk, jsonDumps]
  · intro fs
    simp [extraParamField, hk]
  · intro es
    simp [extraParamField, hk]
  · intro s
    simp [extraParamField, hk, pyStrValue]

/-- Witness for `extra_params_serialization`: a non-reserved key with a
boolean `true` value is attached as the JSON literal `true`. -/
theorem extra_params_serialization_witness :
    ("with_diarization" ∉ reservedNames) ∧
    extraParamField "with_diarization" (.bool true) =
      [⟨"with_diarization", .text "true", Option.none, Option.none⟩] := by
  have h := (extra_params_serialization "with_diarization" [7] "en-IN" "saarika:v2.5"
    []).2.2.1 (by decide)
  exact ⟨by decide, by simpa using h.1 true⟩

theorem ensureSession_inv (s : SessionState) (h : s.Inv) : (ensureSession s).2.Inv := by
  obtain ⟨h1, h2, h3, h4, h5⟩ := h
  rcases hs : s.session with _ | sid
  · refine ⟨?_, ?_, ?_, ?_, ?_⟩ <;> simp only [ensureSession, hs]
    · exact fun sid hm => Nat.lt_succ_of_lt (h1 sid hm)
    · intro sid' hsid'
      simp only [Option.some_inj] at hsid'
      omega
    · intro sid' hm
      rcases List.mem_cons.mp hm with h' | h'
      · omega
      · exact Nat.lt_succ_of_lt (h3 _ h')
    · exact h4.trans (List.subset_cons_self _ _)
    · exact fun _ => ⟨s.nextId, rfl, List.mem_cons_self _ _⟩
  · by_cases hmem : sid ∈ s.closedIds
    · refine ⟨?_, ?_, ?_, ?_, ?_⟩ <;> simp only [ensureSession, hs, hmem, if_true]
      · exact fun sid' hm => Nat.lt_succ_of_lt (h1 sid' hm)
      · intro sid' hsid'
        simp only [Option.some_inj] at hsid'
        omega
      · intro sid' hm
        rcases List.mem_cons.mp hm with h' | h'
        · omega
        · exact Nat.lt_succ_of_lt (h3 _ h')
      · exact h4.trans (List.subset_cons_self _ _)
      · exact fun _ => ⟨s.nextId, rfl, List.mem_cons_self _ _⟩
    · simpa only [ensureSession, hs, hmem, if_false] using ⟨h1, h2, h3, h4, h5⟩

theorem closeSession_inv (s : SessionState) (h : s.Inv) : (closeSession s).Inv := by
  obtain ⟨h1, h2, h3, h4, h5⟩ := h
  rcases hs : s.session with _ | sid
  · simpa only [closeSession, hs] using ⟨h1, h2, h3, h4, h5⟩
  · by_cases hcond : s.ownSession = true ∧ sid ∉ s.closedIds
    · refine ⟨?_, ?_, ?_, ?_, ?_⟩ <;>
        simp only [closeSession, hs, hcond, and_self, if_true]
      · intro sid' hm
        rcases List.mem_cons.mp hm with h' | h'
        · subst h'
          exact h2 _ hs
        · exact h1 _ h'
      · intro sid' hsid'
        simp at hsid'
      · exact h3
      · obtain ⟨sid'', hss, hcr⟩ := h5 hcond.1
        rw [hs] at hss
        obtain rfl : sid = sid'' := by
          simpa using hss
        intro x hx
        rcases List.mem_cons.mp hx with h' | h'
        · subst h'
          exact hcr
        · exact h4 h'
      · intro hfalse
        simp at hfalse
    · have : (if s.ownSession = true ∧ sid ∉ s.closedIds then
          { s with session := Option.none, ownSession := false,
                   closedIds := sid :: s.closedIds,
                   engineClosed := sid :: s.engineClosed }
        else s) = s := if_neg hcond
      simp only [closeSession, hs]
      rw [this]
      exact ⟨h1, h2, h3, h4, h5⟩

theorem foreignSafe_pres (s : SessionState) (op : EngineOp) (p : Phase)
    (h : s.ForeignSafe) : (engineStep ⟨p, s⟩ op).sess.ForeignSafe := by
  obtain ⟨h1, h2⟩ := h
  cases op with
  | opStart => exact ⟨h1, h2⟩
  | opStop =>
    rcases hs : s.session with _ | sid
    · simpa only [engineStep, closeSession, hs] using ⟨h1, h2⟩
    · simp only [engineStep, closeSession, hs]
      split
      · exact ⟨h1, h2⟩
      · exact ⟨h1, h2⟩
  | opCancel =>
    rcases hs : s.session with _ | sid
    · simpa only [engineStep, closeSession, hs] using ⟨h1, h2⟩
    · simp only [engineStep, closeSession, hs]
      split
      · exact ⟨h1, h2⟩
      · exact ⟨h1, h2⟩
  | opSubmit nonempty =>
    cases nonempty with
    | false => exact ⟨h1, h2⟩
    | true =>
      rcases hs : s.session with _ | sid
      · simp only [engineStep, if_true, ensureSession, hs]
        refine ⟨show 1 ≤ s.nextId + 1 by omega, ?_⟩
        intro hm
        rcases List.mem_cons.mp hm with h' | h'
        · omega
        · exact h2 h'
      · by_cases hmem : sid ∈ s.closedIds
        · simp only [engineStep, if_true, ensureSession, hs, hmem]
          refine ⟨show 1 ≤ s.nextId + 1 by omega, ?_⟩
          intro hm
          rcases List.mem_cons.mp hm with h' | h'
          · omega
          · exact h2 h'
        · simpa only [engineStep, if_true, ensureSession, hs, hmem, if_false]
            using ⟨h1, h2⟩
  | opExtClose sid =>
    simp only [engineStep]
    split
    · exact ⟨h1, h2⟩
    · exact ⟨h1, h2⟩

theorem engineStep_inv (st : EngineState) (op : EngineOp) (h : st.sess.Inv) :
    (engineStep st op).sess.Inv := by
  obtain ⟨p, s⟩ := st
  cases op with
  | opStart => exact h
  | opStop => exact closeSession_inv s h
  | opCancel => exact closeSession_inv s h
  | opSubmit nonempty =>
    cases nonempty with
    | false => exact h
    | true => exact ensureSession_inv s h
  | opExtClose sid =>
    obtain ⟨h1, h2, h3, h4, h5⟩ := h
    simp only [engineStep]
    split
    · next hcond =>
      refine ⟨?_, h2, h3, h4, h5⟩
      intro sid' hm
      rcases List.mem_cons.mp hm with h' | h'
      · show sid' < s.nextId
        omega
      · exact h1 _ h'
    · exact ⟨h1, h2, h3, h4, h5⟩

theorem engineRun_inv (ops : List EngineOp) (st : EngineState)
    (h1 : st.sess.Inv) (h2 : st.sess.ForeignSafe) :
    (engineRun st ops).sess.Inv ∧ (engineRun st ops).sess.ForeignSafe := by
  induction ops generalizing st with
  | nil => exact ⟨h1, h2⟩
  | cons op ops ih =>
    obtain ⟨p, s⟩ := st
    exact ih (engineStep ⟨p, s⟩ op) (engineStep_inv _ op h1) (foreignSafe_pres s op p h2)

/-- C9 counterexample: after `start` then `stop` — a terminal, non-startable
phase — a submission still creates a brand-new engine-owned session on
demand: `_ensure_session` performs no lifecycle-phase check. -/
theorem session_created_in_terminal_phase :
    startablePhase (engineRun ⟨Phase.idle, freshInit⟩
      [.opStart, .opStop, .opSubmit true]).phase = false ∧
    (engineRun ⟨Phase.idle, freshInit⟩
      [.opStart, .opStop, .opSubmit true]).sess.session = some 0 ∧
    0 ∈ (engineRun ⟨Phase.idle, freshInit⟩
      [.opStart, .opStop, .opSubmit true]).sess.engineCreated := by
  refine ⟨rfl, rfl, ?_⟩
  decide

/-- C9 amended: across every sequence of lifecycle operations, an externally
injected session is never closed by the engine; a session created lazily by
`_ensure_session` is marked engine-owned and *is* closed by `stop`/`cancel`
(both of which call `_close_session`): when the current handle is
engine-owned and open, either operation actually closes it — the handle is
forgotten and its id enters the closed set and the engine-closed record;
`_close_session` is idempotent; a closed session is never returned again by
`_ensure_session` — a fresh one is created on demand whenever the current
handle is absent or closed, in *any* lifecycle phase (the engine itself
performs no phase check). -/
theorem session_lifecycle_invariants (ops : List EngineOp) (s : SessionState)
    (hclosed : ∀ sid ∈ s.closedIds, sid < s.nextId) :
    0 ∉ (engineRun ⟨Phase.idle, injectedInit⟩ ops).sess.engineClosed ∧
    (s.session = Option.none →
      (ensureSession s).2.ownSession = true ∧
      (ensureSession s).1 ∈ (ensureSession s).2.engineCreated) ∧
    (∀ p sid, s.ownSession = true → s.session = some sid → sid ∉ s.closedIds →
      (engineStep ⟨p, s⟩ .opStop).sess.session = Option.none ∧
      sid ∈ (engineStep ⟨p, s⟩ .opStop).sess.closedIds ∧
      sid ∈ (engineStep ⟨p, s⟩ .opStop).sess.engineClosed ∧
      (engineStep ⟨p, s⟩ .opCancel).sess.session = Option.none ∧
      sid ∈ (engineStep ⟨p, s⟩ .opCancel).sess.closedIds ∧
      sid ∈ (engineStep ⟨p, s⟩ .opCancel).sess.engineClosed) ∧
    closeSession (closeSession s) = closeSession s ∧
    (ensureSession s).1 ∉ s.closedIds ∧
    (∀ p p' : Phase,
      (engineStep ⟨p, s⟩ (.opSubmit true)).sess =
      (engineStep ⟨p', s⟩ (.opSubmit true)).sess) := by
  refine ⟨?_, ?_, ?_, ?_, ?_, fun p p' => rfl⟩
  · have hInv : injectedInit.Inv := by
      refine ⟨?_, ?_, ?_, ?_, ?_⟩ <;> simp [injectedInit, SessionState.Inv]
    have hFS : injectedInit.ForeignSafe := ⟨le_refl 1, by simp [injectedInit]⟩
    obtain ⟨⟨_, _, _, hsub, _⟩, _, hnc⟩ := engineRun_inv ops ⟨Phase.idle, injectedInit⟩ hInv hFS
    exact fun hmem => hnc (hsub hmem)
  · intro hnone
    simp [ensureSession, hnone]
  · intro p sid hown hs hnc
    have hclose : closeSession s =
        { s with session := Option.none, ownSession := false,
                 closedIds := sid :: s.closedIds,
                 engineClosed := sid :: s.engineClosed } := by
      simp [closeSession, hs, hown, hnc]
    have hstop : (engineStep ⟨p, s⟩ .opStop).sess = closeSession s := rfl
    have hcancel : (engineStep ⟨p, s⟩ .opCancel).sess = closeSession s := rfl
    rw [hstop, hcancel, hclose]
    exact ⟨rfl, List.mem_cons_self _ _, List.mem_cons_self _ _,
           rfl, List.mem_cons_self _ _, List.mem_cons_self _ _⟩
  · rcases hs : s.session with _ | sid
    · simp [closeSession, hs]
    · by_cases hcond : s.ownSession = true ∧ sid ∉ s.closedIds
      · simp [closeSession, hs, hcond]
      · simp only [closeSession, hs, if_neg hcond]
  · intro hmem
    rcases hs : s.session with _ | sid
    · simp only [ensureSession, hs] at hmem
      exact absurd (hclosed _ hmem) (lt_irrefl _)
    · by_cases hm : sid ∈ s.closedIds
      · simp only [ensureSession, hs, hm, if_true] at hmem
        exact absurd (hclosed _ hmem) (lt_irrefl _)
      · simp only [ensureSession, hs, hm, if_false] at hmem

/-- Witness for `session_lifecycle_invariants` on a concrete run that injects
a session, submits, stops, and submits again, plus a lazily created session
(handle 0 of a fresh engine after one `_ensure_session`) actually closed by
`stop`. -/
theorem session_lifecycle_invariants_witness :
    (∀ sid ∈ freshInit.closedIds, sid < freshInit.nextId) ∧
    0 ∉ (engineRun ⟨Phase.idle, injectedInit⟩
      [.opStart, .opSubmit true, .opStop, .opSubmit true, .opCancel]).sess.engineClosed ∧
    (engineStep ⟨Phase.started, (ensureSession freshInit).2⟩ .opStop).sess.session =
      Option.none ∧
    0 ∈ (engineStep ⟨Phase.started, (ensureSession freshInit).2⟩ .opStop).sess.engineClosed ∧
    closeSession (closeSession freshInit) = closeSession freshInit := by
  have h := session_lifecycle_invariants
    [.opStart, .opSubmit true, .opStop, .opSubmit true, .opCancel] freshInit
    (by simp [freshInit])
  have h' := session_lifecycle_invariants
    [.opStart, .opSubmit true, .opStop, .opSubmit true, .opCancel]
    (ensureSession freshInit).2 (by simp [ensureSession, freshInit])
  have hc := h'.2.2.1 Phase.started 0 rfl rfl (by decide)
  exact ⟨by simp [freshInit], h.1, hc.1, hc.2.2.1, h.2.2.2.1⟩

/-- C10: for both services, construction with no truthy `api_key` argument
and no non-empty `SARVAM_API_KEY` environment value fails with the
`ValueError` message before anything else is initialized (the error branch
constructs no configuration); whenever either source supplies a non-empty
credential, construction succeeds on that account, and a non-empty explicit
argument takes precedence over the environment value. -/
theorem api_key_resolution (apiKey language model baseUrl : Option String)
    (sessionInjected : Bool) (envS : SttEnv) (envL : LlmEnv) :
    (pyTruthyStrOpt apiKey = false → pyTruthyStrOpt envS.sarvamApiKey = false →
      sarvamSTTInit apiKey language model baseUrl sessionInjected envS =
        .error apiKeyErrorMsg) ∧
    (pyTruthyStrOpt apiKey = false → pyTruthyStrOpt envL.sarvamApiKey = false →
      sarvamLLMInit apiKey model baseUrl envL = .error apiKeyErrorMsg) ∧
    (∀ k, apiKey = some k → k ≠ "" →
      ∃ c, sarvamSTTInit apiKey language model baseUrl sessionInjected envS = .ok c ∧
        c.apiKey = k) ∧
    (∀ k, apiKey = some k → k ≠ "" →
      ∃ c, sarvamLLMInit apiKey model baseUrl envL = .ok c ∧ c.apiKey = k) ∧
    (∀ k, pyTruthyStrOpt apiKey = false → envS.sarvamApiKey = some k → k ≠ "" →
      ∃ c, sarvamSTTInit apiKey language model baseUrl sessionInjected envS = .ok c ∧
        c.apiKey = k) ∧
    (∀ k, pyTruthyStrOpt apiKey = false → envL.sarvamApiKey = some k → k ≠ "" →
      ∃ c, sarvamLLMInit apiKey model baseUrl envL = .ok c ∧ c.apiKey = k) := by
  have hfalsy : ∀ a : Option String, pyTruthyStrOpt a = false →
      (a = Option.none ∨ a = some "") := by
    intro a ha
    rcases a with _ | s
    · exact Or.inl rfl
    · simp [pyTruthyStrOpt] at ha
      exact Or.inr (by rw [ha])
  have hor : ∀ a b : Option String, pyTruthyStrOpt a = false → pyOrStr a b = b := by
    intro a b ha
    rcases hfalsy a ha with rfl | rfl
    · rfl
    · simp [pyOrStr]
  have sttOk : ∀ k, pyOrStr apiKey envS.sarvamApiKey = some k → k ≠ "" →
      ∃ c, sarvamSTTInit apiKey language model baseUrl sessionInjected envS = .ok c ∧
        c.apiKey = k := by
    intro k h hk
    unfold sarvamSTTInit
    rw [h]
    simp [hk]
  have llmOk : ∀ k, pyOrStr apiKey envL.sarvamApiKey = some k → k ≠ "" →
      ∃ c, sarvamLLMInit apiKey model baseUrl envL = .ok c ∧ c.apiKey = k := by
    intro k h hk
    unfold sarvamLLMInit
    rw [h]
    simp [hk]
  refine ⟨?_, ?_, ?_, ?_, ?_, ?_⟩
  · intro ha hb
    rcases hfalsy _ hb with hbn | hbn <;>
      simp [sarvamSTTInit, hor _ _ ha, hbn]
  · intro ha hb
    rcases hfalsy _ hb with hbn | hbn <;>
      simp [sarvamLLMInit, hor _ _ ha, hbn]
  · rintro k rfl hk
    exact sttOk k (by simp [pyOrStr, hk]) hk
  · rintro k rfl hk
    exact llmOk k (by simp [pyOrStr, hk]) hk
  · intro k ha hb hk
    exact sttOk k ((hor _ _ ha).trans hb) hk
  · intro k ha hb hk
    exact llmOk k ((hor _ _ ha).trans hb) hk

/-- Witness for `api_key_resolution`: missing credential fails; explicit
argument wins over a conflicting environment value; environment alone
suffices. -/
theorem api_key_resolution_witness :
    sarvamSTTInit Option.none Option.none Option.none Option.none false
      ⟨Option.none, Option.none, Option.none, Option.none⟩ = .error apiKeyErrorMsg ∧
    (∃ c, sarvamSTTInit (some "arg-key") Option.none Option.none Option.none false
      ⟨some "env-key", Option.none, Option.none, Option.none⟩ = .ok c ∧
      c.apiKey = "arg-key") ∧
    (∃ c, sarvamLLMInit Option.none Option.none Option.none
      ⟨some "env-key", Option.none, Option.none⟩ = .ok c ∧ c.apiKey = "env-key") := by
  refine ⟨?_, ?_, ?_⟩
  · exact (api_key_resolution Option.none Option.none Option.none Option.none false
      ⟨Option.none, Option.none, Option.none, Option.none⟩
      ⟨Option.none, Option.none, Option.none⟩).1 rfl rfl
  · exact (api_key_resolution (some "arg-key") Option.none Option.none Option.none false
      ⟨some "env-key", Option.none, Option.none, Option.none⟩
      ⟨Option.none, Option.none, Option.none⟩).2.2.1 "arg-key" rfl (by decide)
  · exact (api_key_resolution Option.none Option.none Option.none Option.none false
      ⟨Option.none, Option.none, Option.none, Option.none⟩
      ⟨some "env-key", Option.none, Option.none⟩).2.2.2.2.2 "env-key" rfl rfl (by decide)

end VoiceBot
